import Mathlib

/-!
Shallow embedding of `src/merge.c`, a multi-threaded MIDI stream merger.

Bytes are modelled as `Nat` (the C code reads `uint8_t`, so sources hold
values in `0..255`).  The C macros on lines 20-24 of `merge.c` test a
masked value for C truthiness (nonzero), exactly as written:

  IS_CHANNEL(b)  ((b) & 0x80)
  IS_SYSRT(b)    ((b) & 0xF8)
  IS_SYSTEM(b)   ((b) & 0xF0)
  IS_SOX(b)      ((b) == 0xF0)
  IS_EOX(b)      ((b) == 0xF7)

The embedding keeps those semantics (a mask is "true" iff nonzero); it
never substitutes the masks the names suggest.

Byte input is a `List Nat`; a read from an empty list models `read`
returning 0 (clean EOF), which makes `getbyte` record the result and
exit the thread (lines 87-97).  The sink is modelled as the trace of
events the worker produces: each call to `putbyte` contributes the byte
passed to `write`, and lock operations contribute lock events, in
program order.  The return-value check inside `putbyte`
(`write(...) != 0`, lines 77-85) is modelled separately by
`putbyteFails`; the framing-level model records the byte of every
`write` call and corresponds to executions in which every `write`
returns 0, the only value that lets the worker continue.
-/

namespace MergeC

/-- C truthiness of `(b) & 0x80` (merge.c line 20). -/
def IS_CHANNEL (b : Nat) : Bool := b &&& 0x80 != 0

/-- C truthiness of `(b) & 0xF8` (merge.c line 21). -/
def IS_SYSRT (b : Nat) : Bool := b &&& 0xF8 != 0

/-- C truthiness of `(b) & 0xF0` (merge.c line 22). -/
def IS_SYSTEM (b : Nat) : Bool := b &&& 0xF0 != 0

/-- Equality test `(b) == 0xF0` (merge.c line 23). -/
def IS_SOX (b : Nat) : Bool := b == 0xF0

/-- Equality test `(b) == 0xF7` (merge.c line 24). -/
def IS_EOX (b : Nat) : Bool := b == 0xF7

/-- The 16-entry message length table `msglen` (merge.c lines 28-47). -/
def msglen : Nat → Nat
  | 0x0 => 0
  | 0x1 => 1
  | 0x2 => 2
  | 0x3 => 1
  | 0x4 => 0
  | 0x5 => 0
  | 0x6 => 0
  | 0x7 => 0
  | 0x8 => 2
  | 0x9 => 2
  | 0xA => 2
  | 0xB => 2
  | 0xC => 1
  | 0xD => 1
  | 0xE => 2
  | _   => 0

/-- Result of the data-collection loop of `putmsg` (merge.c lines 133-147):
`ok` when the loop exits normally, `eof` when `getbyte` hits end of input
(the thread exits), `framing` when the `IS_CHANNEL(byte)` check fires and
the thread exits with `EINVAL` (lines 135-142). -/
inductive PRes where
  | ok : PRes
  | eof : PRes
  | framing : PRes
deriving DecidableEq

/-- The `while (i <= count)` loop of `putmsg` (merge.c lines 133-147).
Returns the bytes written, the unconsumed input, and how the loop ended.
Each iteration reads a byte; a byte with `IS_CHANNEL` true (top bit set)
aborts with `EINVAL`; otherwise the byte is written and `i` is
incremented only when `IS_SYSRT` is false for it. -/
def putmsgLoop (count : Int) : Int → List Nat → List Nat × List Nat × PRes
  | i, src =>
    if i > count then ([], src, PRes.ok)
    else
      match src with
      | [] => ([], [], PRes.eof)
      | b :: rest =>
        if IS_CHANNEL b then ([], rest, PRes.framing)
        else
          let r := putmsgLoop count (if IS_SYSRT b then i else i + 1) rest
          (b :: r.1, r.2.1, r.2.2)

/-- Result of one `putmsg` call: bytes written, unconsumed input, value of
`mss->global->status` on return, and how the call ended. -/
structure PutRes where
  out : List Nat
  rem : List Nat
  gs : Nat
  res : PRes
deriving DecidableEq

/-- The shared emit procedure `putmsg` (merge.c lines 99-148), called with
the message lock held.  `g` is `mss->global->status` on entry, `status`
and `byte` and `count` are the parameters, `src` the remaining input.
If `byte == status` the status byte is written iff the global status
differs (running status otherwise) and the loop starts at `i = 0`;
otherwise the remembered `status` is written iff the global status
differs, then `byte` is written as a data byte and the loop starts at
`i = 1`. -/
def putmsg (g status byte : Nat) (count : Int) (src : List Nat) : PutRes :=
  if byte = status then
    let pre : List Nat × Nat := if g ≠ status then ([byte], byte) else ([], g)
    let r := putmsgLoop count 0 src
    ⟨pre.1 ++ r.1, r.2.1, pre.2, r.2.2⟩
  else
    let pre : List Nat × Nat := if g ≠ status then ([status], status) else ([], g)
    let r := putmsgLoop count 1 src
    ⟨pre.1 ++ byte :: r.1, r.2.1, pre.2, r.2.2⟩

example : putmsg 0 0x90 0x90 2 [1, 2, 3, 4] = ⟨[0x90, 1, 2, 3], [4], 0x90, PRes.ok⟩ := by decide

example : putmsg 0 0xB0 0xB0 2 [0x07, 0xF8, 0x64] = ⟨[0xB0, 0x07], [0x64], 0xB0, PRes.framing⟩ := by decide

/-- The `do { putbyte(byte); byte = getbyte(); } while (!IS_EOX(byte));
putbyte(byte);` loop of the SysEx branch (merge.c lines 177-181).  `b` is
the byte already in hand (0xF0 on entry).  Returns the bytes written, the
unconsumed input, and `true` when the terminating 0xF7 was written
(`false` models `getbyte` hitting end of input and exiting the thread). -/
def sysexLoop (b : Nat) : List Nat → List Nat × List Nat × Bool
  | [] => ([b], [], false)
  | x :: rest =>
    if IS_EOX x then ([b, x], rest, true)
    else
      let r := sysexLoop x rest
      (b :: r.1, r.2.1, r.2.2)

/-- One observable event on the shared output: a byte passed to `write`,
or a lock operation on `lock` (the message lock) or `lock_rt`. -/
inductive Ev where
  | byteEv : Nat → Ev
  | lockMsg : Ev
  | unlockMsg : Ev
  | lockRt : Ev
  | unlockRt : Ev
deriving DecidableEq

/-- Bytes written, as trace events. -/
def bytesEv (l : List Nat) : List Ev := l.map Ev.byteEv

/-- Worker-visible state at the top of the framing loop of `run`
(merge.c lines 151-201): the local `status` (initialized 0x00 on line
154), the local `count` (declared uninitialized on line 157, so its
initial value is arbitrary and theorems either quantify over it or fix a
representative), and `mss->global->status`. -/
structure WSt where
  status : Nat
  count : Int
  gs : Nat
deriving DecidableEq

/-- How a worker leaves its framing loop: clean end of input (`getbyte`
read 0 bytes, merge.c lines 91-95) or the `EINVAL` framing exit of
`putmsg` (lines 138-141). -/
inductive WTerm where
  | eof : WTerm
  | framing : WTerm
deriving DecidableEq

/-- Result of one iteration of the framing loop of `run` given the byte
`b` just read: either continue with new state and remaining input, or
stop with a terminal status.  The event list is everything the iteration
put on the wire. -/
inductive StepOut where
  | next : List Ev → WSt → List Nat → StepOut
  | stop : List Ev → WTerm → StepOut
deriving DecidableEq

/-- One iteration of the framing loop of `run` (merge.c lines 159-199),
after `getbyte` returned `b` with `rest` still unread.  The branch chain
is exactly the one in the source: `IS_SYSRT` (write the single byte under
`lock_rt`), else under `lock`: `IS_SOX` (SysEx pass-through under
`lock_rt`, then `global->status = 0x00`), else `IS_SYSTEM`
(`count = msglen[byte & 0x0F]`, `putmsg`, `status = byte`), else
`IS_CHANNEL` (`count = msglen[byte >> 4]`, `putmsg`, `status = byte`),
else running status (`putmsg` with the current `status` and `count`). -/
def runStep (st : WSt) (b : Nat) (rest : List Nat) : StepOut :=
  if IS_SYSRT b then
    StepOut.next [Ev.lockRt, Ev.byteEv b, Ev.unlockRt] st rest
  else if IS_SOX b then
    let s := sysexLoop b rest
    if s.2.2 then
      StepOut.next ([Ev.lockMsg, Ev.lockRt] ++ bytesEv s.1 ++ [Ev.unlockRt, Ev.unlockMsg])
        ⟨st.status, st.count, 0x00⟩ s.2.1
    else
      StepOut.stop ([Ev.lockMsg, Ev.lockRt] ++ bytesEv s.1) WTerm.eof
  else if IS_SYSTEM b then
    let c : Int := msglen (b &&& 0x0F)
    let p := putmsg st.gs st.status b c rest
    match p.res with
    | PRes.ok => StepOut.next ([Ev.lockMsg] ++ bytesEv p.out ++ [Ev.unlockMsg]) ⟨b, c, p.gs⟩ p.rem
    | PRes.eof => StepOut.stop ([Ev.lockMsg] ++ bytesEv p.out) WTerm.eof
    | PRes.framing => StepOut.stop ([Ev.lockMsg] ++ bytesEv p.out) WTerm.framing
  else if IS_CHANNEL b then
    let c : Int := msglen (b >>> 4)
    let p := putmsg st.gs st.status b c rest
    match p.res with
    | PRes.ok => StepOut.next ([Ev.lockMsg] ++ bytesEv p.out ++ [Ev.unlockMsg]) ⟨b, c, p.gs⟩ p.rem
    | PRes.eof => StepOut.stop ([Ev.lockMsg] ++ bytesEv p.out) WTerm.eof
    | PRes.framing => StepOut.stop ([Ev.lockMsg] ++ bytesEv p.out) WTerm.framing
  else
    let p := putmsg st.gs st.status b st.count rest
    match p.res with
    | PRes.ok => StepOut.next ([Ev.lockMsg] ++ bytesEv p.out ++ [Ev.unlockMsg])
        ⟨st.status, st.count, p.gs⟩ p.rem
    | PRes.eof => StepOut.stop ([Ev.lockMsg] ++ bytesEv p.out) WTerm.eof
    | PRes.framing => StepOut.stop ([Ev.lockMsg] ++ bytesEv p.out) WTerm.framing

/-- The framing loop of `run`, iterated with explicit fuel.  Every
iteration consumes at least the byte read by `getbyte` at the top of the
loop, so fuel `src.length + 1` (as supplied by `runWorker`) can never run
out before the input does; the fuel-exhausted case is unreachable there
and returns the clean-EOF outcome. -/
def runFuel : Nat → WSt → List Nat → List Ev × WTerm
  | 0, _, _ => ([], WTerm.eof)
  | _ + 1, _, [] => ([], WTerm.eof)
  | fuel + 1, st, b :: rest =>
    match runStep st b rest with
    | StepOut.stop ev t => (ev, t)
    | StepOut.next ev st1 rem =>
      let r := runFuel fuel st1 rem
      (ev ++ r.1, r.2)

/-- A whole worker run (the thread body `run`, merge.c lines 151-201) on
a finite input: the trace of events it produces and how it terminates. -/
def runWorker (st : WSt) (src : List Nat) : List Ev × WTerm :=
  runFuel (src.length + 1) st src

example : runWorker ⟨0, 0, 0⟩ [0x08] = ([Ev.lockRt, Ev.byteEv 0x08, Ev.unlockRt], WTerm.eof) := by decide

example : runWorker ⟨0, 0, 0⟩ [0xF0, 0x01, 0xF7] =
    ([Ev.lockRt, Ev.byteEv 0xF0, Ev.unlockRt,
      Ev.lockMsg, Ev.byteEv 0x01, Ev.unlockMsg,
      Ev.lockRt, Ev.byteEv 0xF7, Ev.unlockRt], WTerm.eof) := by decide

example : runWorker ⟨0, 0, 0⟩ [0x3C, 0x7F] =
    ([Ev.lockRt, Ev.byteEv 0x3C, Ev.unlockRt,
      Ev.lockRt, Ev.byteEv 0x7F, Ev.unlockRt], WTerm.eof) := by decide

/-- The error test of `putbyte` (merge.c line 80):
`(mss->io.retval = write(mss->global->fd, &byte, 1)) != 0`.  `retval` is
whatever `write` returned; the function records an `io_write` error and
exits the thread exactly when this is `true`. -/
def putbyteFails (retval : Int) : Bool := retval != 0

/-- The per-worker terminal record `IOStatus` (merge.c lines 59-62). -/
structure IOStatus where
  retval : Int
  error : Int
deriving DecidableEq

/-- The exit test of `getbyte` (merge.c lines 91-95):
`(mss->io.retval = read(mss->fd, &byte, 1)) <= 0`.  Given the value
`read` returned and the ambient `errno`, produce `some rec` when the
worker records `rec` and exits the thread (clean EOF is `retval = 0`, an
`io_read` error is `retval = -1`), `none` when the read produced a byte
and the worker continues. -/
def getbyteOutcome (retval errno : Int) : Option IOStatus :=
  if retval ≤ 0 then some ⟨retval, errno⟩ else none

/-- The stream limit (merge.c line 26). -/
def MAX_STREAMS : Nat := 8

/-- The C argument vector as seen from index 1: `args` holds
`argv[1] .. argv[argc-1]`; position `argc` (and beyond) is the NULL
terminator the C standard guarantees, modelled as `none`. -/
def argvAt (args : List Nat) (i : Nat) : Option Nat :=
  if h : i - 1 < args.length then some (args.get ⟨i - 1, h⟩) else none

/-- The argument loop of `main` (merge.c lines 224-250) over the listed
index values (`[1, ..., argc]`, matching `for (i = 1; i <= argc; ++i)`).
`openOk o` tells whether `open` succeeds on the name `o` (with `none`
the NULL pointer `argv[argc]`).  Returns `some code` when the loop calls
`exit(code)` (`j > MAX_STREAMS` on lines 226-229, or a failed open on
lines 233-237 and 242-246), `none` when the loop completes. -/
def mainScan (openOk : Option Nat → Bool) (args : List Nat) (argc : Nat) :
    List Nat → Option Nat
  | [] => none
  | i :: is =>
    if i - 1 > MAX_STREAMS then some 1
    else if i = argc then
      if openOk (argvAt args i) then mainScan openOk args argc is else some 1
    else if openOk (argvAt args i) then mainScan openOk args argc is
    else some 1

/-- The process exit status of `main` (merge.c lines 211-280) as a
function of the input names `args = argv[1..argc-1]` and the open
oracle.  After the argument loop, `out = argc - 1`; `out == 0` exits 1
(line 251-254); otherwise the threads are launched and reaped and `main`
falls off its end, which returns 0 regardless of the terminal status of
any worker. -/
def mainResult (openOk : Option Nat → Bool) (args : List Nat) : Nat :=
  let argc := args.length + 1
  match mainScan openOk args argc ((List.range argc).map (· + 1)) with
  | some code => code
  | none => if argc - 1 = 0 then 1 else 0

example : mainResult (fun o => o.isSome) [5, 7] = 1 := by decide

/-- When every byte of the remaining input has the top bit clear, the
collection loop of `putmsg` cannot end in its `EINVAL` framing exit, and
the input it leaves unconsumed again has every top bit clear. -/
lemma putmsgLoop_low (count : Int) (i : Int) (src : List Nat)
    (h : ∀ b ∈ src, IS_CHANNEL b = false) :
    (putmsgLoop count i src).2.2 ≠ PRes.framing
    ∧ ∀ b ∈ (putmsgLoop count i src).2.1, IS_CHANNEL b = false := by
  induction src generalizing i with
  | nil => by_cases hi : i > count <;> simp [putmsgLoop, hi]
  | cons b rest ih =>
    have hb : IS_CHANNEL b = false := h b (List.mem_cons_self b rest)
    have hrest : ∀ x ∈ rest, IS_CHANNEL x = false :=
      fun x hx => h x (List.mem_cons_of_mem b hx)
    by_cases hi : i > count
    · refine ⟨by simp [putmsgLoop, hi], ?_⟩
      simpa [putmsgLoop, hi] using h
    · simpa [putmsgLoop, hi, hb] using ih _ hrest

/-- Lifting of `putmsgLoop_low` through the preamble of `putmsg`. -/
lemma putmsg_low (g status byte : Nat) (count : Int) (src : List Nat)
    (h : ∀ b ∈ src, IS_CHANNEL b = false) :
    (putmsg g status byte count src).res ≠ PRes.framing
    ∧ ∀ b ∈ (putmsg g status byte count src).rem, IS_CHANNEL b = false := by
  by_cases hb : byte = status <;> by_cases hg : g = status <;>
    simpa [putmsg, hb, hg] using putmsgLoop_low count _ src h

/-- When a byte at the top of the framing loop is neither realtime by
`IS_SYSRT` nor a top-bit byte by `IS_CHANNEL`, the `IS_SOX` and
`IS_SYSTEM` tests are false as well (their masks lie inside 0xF8). -/
lemma classify_low (b : Nat) (hrt : IS_SYSRT b = false) :
    IS_SOX b = false ∧ IS_SYSTEM b = false := by
  have h8 : b &&& 0xF8 = 0 := by
    simpa [IS_SYSRT] using hrt
  constructor
  · simp only [IS_SOX, beq_eq_false_iff_ne, ne_eq]
    intro hbe
    rw [hbe] at h8
    exact absurd h8 (by decide)
  · have h0 : b &&& 0xF0 = 0 := by
      have hc : (0xF8 : Nat) &&& 0xF0 = 0xF0 := by decide
      calc b &&& 0xF0 = b &&& (0xF8 &&& 0xF0) := by rw [hc]
        _ = (b &&& 0xF8) &&& 0xF0 := by rw [Nat.land_assoc]
        _ = 0 &&& 0xF0 := by rw [h8]
        _ = 0 := by simp
    simp [IS_SYSTEM, h0]

/-- When every byte of the input has the top bit clear, a worker run
never ends in a framing error, whatever its starting state and fuel. -/
lemma runFuel_low (fuel : Nat) (st : WSt) (src : List Nat)
    (h : ∀ b ∈ src, IS_CHANNEL b = false) :
    (runFuel fuel st src).2 ≠ WTerm.framing := by
  induction fuel generalizing st src with
  | zero => simp [runFuel]
  | succ n ih =>
    cases src with
    | nil => simp [runFuel]
    | cons b rest =>
      have hb : IS_CHANNEL b = false := h b (List.mem_cons_self b rest)
      have hrest : ∀ x ∈ rest, IS_CHANNEL x = false :=
        fun x hx => h x (List.mem_cons_of_mem b hx)
      cases hrt : IS_SYSRT b with
      | true =>
        simpa [runFuel, runStep, hrt] using ih st rest hrest
      | false =>
        obtain ⟨hsox, hsys⟩ := classify_low b hrt
        obtain ⟨hres, hrem⟩ := putmsg_low st.gs st.status b st.count rest hrest
        cases hr : (putmsg st.gs st.status b st.count rest).res with
        | ok =>
          simpa [runFuel, runStep, hrt, hsox, hsys, hb, hr] using
            ih _ _ hrem
        | eof => simp [runFuel, runStep, hrt, hsox, hsys, hb, hr]
        | framing => exact absurd hr hres

/-- C1: the claim says a byte `b` at the top of the framing loop is
treated as System Real-Time (written as a single byte under `rt_lock`
with both statuses unchanged) if and only if `b` is in `0xF8..0xFF`.
The code tests `IS_SYSRT(b)`, which is `(b) & 0xF8` under C truthiness
and is nonzero for every `b ≥ 0x08`: the byte 0x08 - a data byte - is
written as a single byte under `rt_lock` with the worker state
unchanged, although 0x08 is far below 0xF8. -/
theorem claim1_realtime_class_bug :
    (∀ (st : WSt) (rest : List Nat),
      runStep st 0x08 rest =
        StepOut.next [Ev.lockRt, Ev.byteEv 0x08, Ev.unlockRt] st rest)
    ∧ ¬ (0xF8 ≤ 0x08) :=
  ⟨fun _ _ => rfl, by decide⟩

/-- C2: the claim says a worker that reads 0xF0 writes 0xF0 and then
copies source bytes to the sink until 0xF7, finally setting
`global_status := 0x00`.  In the code, `IS_SYSRT(0xF0)` is the nonzero
mask `0xF0 & 0xF8 = 0xF0`, so 0xF0 is consumed by the real-time branch
as a single byte under `rt_lock` and the `IS_SOX` SysEx branch is never
reached: on input `F0 01 F7` the bytes are emitted as three separate
items (0xF0 and 0xF7 under `rt_lock`, 0x01 as a running-status data byte
under the message lock), not as one atomic SysEx. -/
theorem claim2_sysex_branch_dead :
    IS_SYSRT 0xF0 = true
    ∧ (∀ (st : WSt) (rest : List Nat),
        runStep st 0xF0 rest =
          StepOut.next [Ev.lockRt, Ev.byteEv 0xF0, Ev.unlockRt] st rest)
    ∧ runWorker ⟨0, 0, 0⟩ [0xF0, 0x01, 0xF7] =
        ([Ev.lockRt, Ev.byteEv 0xF0, Ev.unlockRt,
          Ev.lockMsg, Ev.byteEv 0x01, Ev.unlockMsg,
          Ev.lockRt, Ev.byteEv 0xF7, Ev.unlockRt], WTerm.eof) :=
  ⟨by decide, fun _ _ => rfl, by decide⟩

/-- C3: the claim says `putmsg` reads and emits exactly `n` data bytes,
`n` the message-length-table value.  For a Note On (`msglen 0x9 = 2`)
the loop `while (i <= count)` runs for `i = 0, 1, 2` and emits three
data bytes; moreover `i` is incremented only when `IS_SYSRT(byte)` is
zero, i.e. only for data bytes below 0x08, so ordinary data bytes such
as 0x10 never count toward the total and the loop runs until the input
ends or a top-bit byte aborts it. -/
theorem claim3_count_off_by_one :
    msglen 0x9 = 2
    ∧ putmsg 0 0x90 0x90 (msglen 0x9 : Int) [1, 2, 3, 4] =
        ⟨[0x90, 1, 2, 3], [4], 0x90, PRes.ok⟩
    ∧ putmsg 0 0x90 0x90 (msglen 0x9 : Int) [0x10, 0x20, 0x30] =
        ⟨[0x90, 0x10, 0x20, 0x30], [], 0x90, PRes.eof⟩ := by decide

/-- C4: the claim says a real-time byte (0xF8..0xFF) read while
collecting data bytes is written immediately, is not counted, and causes
no error, giving sink `B0 07 F8 64` for input `B0 07 F8 64`.  In the
code the collection loop first tests `IS_CHANNEL(byte)` - the mask
`byte & 0x80`, nonzero for every byte with the top bit set, 0xF8
included - and exits the thread with `EINVAL`: on the claimed input the
call emits only `B0 07` and terminates with a framing error.  (With the
macros as written the byte 0xB0 itself would moreover never reach
`putmsg`: `IS_SYSRT(0xB0)` is nonzero, so the whole message is routed to
the real-time branch.) -/
theorem claim4_realtime_mid_message_bug :
    putmsg 0 0xB0 0xB0 (msglen 0xB : Int) [0x07, 0xF8, 0x64] =
      ⟨[0xB0, 0x07], [0x64], 0xB0, PRes.framing⟩
    ∧ IS_CHANNEL 0xF8 = true
    ∧ IS_SYSRT 0xB0 = true := by decide

/-- C5: in every `putmsg` call the status byte is omitted from the
output exactly when the global status already equals the `status`
parameter on entry, and on return the global status equals `status`
(the code assigns it in the preamble, before the data loop, so it holds
in particular after a successful emission). -/
theorem claim5_running_status (g status byte : Nat) (count : Int) (src : List Nat) :
    (putmsg g status byte count src).out =
      (if g = status then [] else [status])
        ++ (if byte = status then [] else [byte])
        ++ (putmsgLoop count (if byte = status then 0 else 1) src).1
    ∧ (putmsg g status byte count src).gs = status := by
  by_cases hb : byte = status <;> by_cases hg : g = status <;>
    simp [putmsg, hb, hg]

/-- C6 counterexample: the claim says an input whose first byte is a
data byte (no established status) terminates the worker with a framing
error; this is scenario 6 of the specification, input `3C 7F`.  On the
code, 0x3C and 0x7F both satisfy `IS_SYSRT` (nonzero mask), so each is
written as a single byte under `rt_lock` and the worker terminates at
clean end of input, with no framing error.  (The initial state has the
worker status 0x00 of merge.c line 154; the uninitialized `count` is
taken as 0, and no branch of this run reads it.) -/
theorem claim6_counterexample :
    runWorker ⟨0, 0, 0⟩ [0x3C, 0x7F] =
      ([Ev.lockRt, Ev.byteEv 0x3C, Ev.unlockRt,
        Ev.lockRt, Ev.byteEv 0x7F, Ev.unlockRt], WTerm.eof)
    ∧ (runWorker ⟨0, 0, 0⟩ [0x3C, 0x7F]).2 ≠ WTerm.framing := by decide

/-- C6 amended: a worker terminates with a framing error (`EINVAL`)
exactly when a byte with the top bit set is read inside the data
collection loop of `putmsg`; a data byte at the top of the framing loop
with no established status is not detected as an error.  Part one: any
top-bit byte read while the loop is still collecting aborts with the
framing exit.  Part two: on an input with no top-bit byte a run never
ends in framing (so framing can only come from that loop).  Part three:
a data byte with no established status (worker status 0x00) is emitted
by `putmsg` without any error. -/
theorem claim6_amended :
    (∀ (count i : Int) (b : Nat) (rest : List Nat),
        i ≤ count → IS_CHANNEL b = true →
        putmsgLoop count i (b :: rest) = ([], rest, PRes.framing))
    ∧ (∀ (st : WSt) (src : List Nat),
        (∀ b ∈ src, IS_CHANNEL b = false) →
        (runWorker st src).2 ≠ WTerm.framing)
    ∧ putmsg 0 0 0x05 0 [] = ⟨[0x05], [], 0, PRes.ok⟩ := by
  refine ⟨?_, ?_, by decide⟩
  · intro count i b rest hic hb
    have hi : ¬ i > count := not_lt.mpr hic
    simp [putmsgLoop, hi, hb]
  · intro st src h
    exact runFuel_low (src.length + 1) st src h

/-- C6 amended, witness: the amended theorem applied at a concrete
top-bit byte inside the loop and at a concrete all-data input. -/
theorem claim6_amended_wit :
    putmsgLoop 2 0 [0x90] = ([], [], PRes.framing)
    ∧ (runWorker ⟨0, 0, 0⟩ [0x01, 0x02]).2 ≠ WTerm.framing :=
  ⟨claim6_amended.1 2 0 0x90 [] (by decide) (by decide),
   claim6_amended.2.1 ⟨0, 0, 0⟩ [0x01, 0x02] (by decide)⟩

/-- C7: the claim says the byte write succeeds exactly when the
underlying `write` completes one byte (returns 1).  The code treats any
return value other than 0 as an `io_write` error and exits the thread,
so a completed one-byte write (return value 1) is recorded as an error
and only the impossible zero-byte outcome continues. -/
theorem claim7_write_success_treated_as_error :
    putbyteFails 1 = true ∧ putbyteFails 0 = false := by decide

/-- C8: a read returning 0 (clean end of input) makes `getbyte` record
its terminal `IOStatus` with `retval = 0` and exit the worker, and that
record differs from the one recorded for an `io_read` error (where
`read` returns -1), whatever `errno` holds in either case. -/
theorem claim8_eof_recorded_ok (e err : Int) :
    getbyteOutcome 0 e = some ⟨0, e⟩
    ∧ getbyteOutcome (-1) err = some ⟨-1, err⟩
    ∧ (⟨0, e⟩ : IOStatus) ≠ ⟨-1, err⟩ := by
  exact ⟨by simp [getbyteOutcome], by simp [getbyteOutcome], by simp [IOStatus.mk.injEq]⟩

/-- Position `argc` of the C argument vector is the NULL terminator. -/
lemma argvAt_last (args : List Nat) : argvAt args (args.length + 1) = none := by
  simp [argvAt]

/-- As long as the index value `argc` is still ahead of it, the argument
loop of `main` exits the process with status 1: every early exit of the
loop is `exit(1)`, and the iteration at `i == argc` opens the NULL name,
which fails. -/
lemma mainScan_hits_argc (openOk : Option Nat → Bool) (args : List Nat) (argc : Nat)
    (hnull : openOk (argvAt args argc) = false) :
    ∀ l : List Nat, argc ∈ l → mainScan openOk args argc l = some 1 := by
  intro l
  induction l with
  | nil => intro hmem; exact absurd hmem (List.not_mem_nil argc)
  | cons i is ih =>
    intro hmem
    by_cases hmax : i - 1 > MAX_STREAMS
    · simp [mainScan, hmax]
    · by_cases hia : i = argc
      · subst hia
        simp [mainScan, hmax, hnull]
      · have hmem2 : argc ∈ is := by
          rcases List.mem_cons.mp hmem with h1 | h2
          · exact absurd h1.symm hia
          · exact h2
        by_cases hop : openOk (argvAt args i) = true
        · simp [mainScan, hmax, hia, hop, ih hmem2]
        · simp [mainScan, hmax, hia, hop]

/-- C9: the claim says the process exit status is 0 exactly when every
worker terminated cleanly (all opens having succeeded).  In the code the
argument loop `for (i = 1; i <= argc; ++i)` runs one index past the
provided arguments, so the iteration at `i == argc` takes
`argv[argc]` - the NULL terminator - as the sink name; opening it fails
and `main` exits with status 1 on every invocation, before any worker is
launched, no matter how the named files would open.  (Independently, the
reap loop never inspects any worker terminal status and `main` would
fall off its end, returning 0, even if some worker had failed.) -/
theorem claim9_exit_always_one (openOk : Option Nat → Bool) (args : List Nat)
    (hnull : openOk none = false) :
    mainResult openOk args = 1 := by
  have hnull2 : openOk (argvAt args (args.length + 1)) = false := by
    rw [argvAt_last]
    exact hnull
  have hmem : (args.length + 1) ∈ (List.range (args.length + 1)).map (· + 1) :=
    List.mem_map.mpr ⟨args.length, by simp [List.mem_range], rfl⟩
  have hscan := mainScan_hits_argc openOk args (args.length + 1) hnull2 _ hmem
  simp [mainResult, hscan]

/-- C9 witness: with two input names that both open successfully (the
oracle succeeds on every non-NULL name), the process still exits 1. -/
theorem claim9_exit_always_one_wit : mainResult (fun o => o.isSome) [5, 7] = 1 :=
  claim9_exit_always_one (fun o => o.isSome) [5, 7] rfl

/-- C10: the claim says that after a worker finishes emitting a SysEx
its remembered status is unchanged, so a following data byte is framed
as a running-status continuation.  In the code no SysEx is ever
emitted - 0xF0 satisfies `IS_SYSRT` and is written as a lone real-time
byte with the whole worker state (remembered status included)
unchanged - and a following data byte such as 0x3C also satisfies
`IS_SYSRT` and is written as a lone byte too, not framed as a
continuation of any status. -/
theorem claim10_no_sysex_status_effect :
    runStep ⟨0x90, 2, 0x90⟩ 0xF0 [0x3C] =
      StepOut.next [Ev.lockRt, Ev.byteEv 0xF0, Ev.unlockRt] ⟨0x90, 2, 0x90⟩ [0x3C]
    ∧ runStep ⟨0x90, 2, 0x90⟩ 0x3C [] =
      StepOut.next [Ev.lockRt, Ev.byteEv 0x3C, Ev.unlockRt] ⟨0x90, 2, 0x90⟩ []
    ∧ IS_SYSRT 0x3C = true := by decide

end MergeC
